import Mathlib

set_option autoImplicit false

/-!
Shallow embedding of src/main.go: a Fiber HTTP server exposing CRUD routes
on a single user collection backed by MongoDB. The MongoDB collection is
modelled as a list of documents in natural order; the driver operations
used by the code (Find with an empty filter, InsertOne, UpdateOne with a
name filter, DeleteOne with a name filter) are modelled on that list, with
UpdateOne and DeleteOne affecting the first matching document. ObjectIDs
are modelled as naturals, with 0 standing for the zero ObjectID; generated
ObjectIDs are fresh and nonzero. Network and store connectivity failures
and timeouts are environmental and not modelled; each store call either
succeeds or, for InsertOne, fails with a duplicate-key error.
-/

namespace FiberServer

/-- primitive.ObjectID modelled as a natural number; 0 is the zero ObjectID. -/
abbrev ObjectId := Nat

/-- The User struct of main.go: ID has json tag _id and bson tag _id,omitempty;
Name has tags name; Age has tags age. BodyParser fills missing JSON fields
with zero values (ID = zero ObjectID, Name = "", Age = 0). -/
structure User where
  id : ObjectId
  name : String
  age : Int
deriving Repr, DecidableEq

/-- A document persisted in the users collection: after insertion every
document has an _id, a name and an age. -/
structure Doc where
  id : ObjectId
  name : String
  age : Int
deriving Repr, DecidableEq

/-- The users collection, in natural (insertion) order. -/
abbrev Store := List Doc

/-- JSON values, used for response bodies. The opaque hex rendering of an
ObjectID is abstracted by its numeric value. -/
inductive Json where
  | null : Json
  | jnum : Int → Json
  | jstr : String → Json
  | jarr : List Json → Json
  | jobj : List (String × Json) → Json

/-- Field lookup in a JSON object. -/
def Json.getField : Json → String → Option Json
  | .jobj fields, k => fields.lookup k
  | _, _ => none

/-- Elements of a JSON array. -/
def Json.arrElems : Json → List Json
  | .jarr xs => xs
  | _ => []

/-- JSON rendering of an ObjectID. -/
def jsonOfId (i : ObjectId) : Json := .jnum (Int.ofNat i)

/-- encoding/json marshalling of the User struct: _id, name and age are all
emitted (no omitempty on the json tags). -/
def userToJson (u : User) : Json :=
  .jobj [("_id", jsonOfId u.id), ("name", .jstr u.name), ("age", .jnum u.age)]

/-- Marshalling of a Go slice of users: a nil slice marshals to null, a
non-nil slice to a JSON array. none models the nil slice. -/
def jsonOfUserSlice : Option (List User) → Json
  | none => Json.null
  | some l => Json.jarr (l.map userToJson)

/-- fiber.Map of the error responses: a single error field. -/
def errJson (msg : String) : Json := .jobj [("error", .jstr msg)]

/-- An HTTP response: status code and JSON body. -/
structure Response where
  status : Nat
  body : Json

/-- The bson marshalling of the _id field of a client-supplied User under
the tag _id,omitempty: the zero ObjectID is omitted, a nonzero ObjectID is
included in the document sent to the store. -/
def bsonIdOfUser (u : User) : Option ObjectId :=
  if u.id = 0 then none else some u.id

/-- A store-generated ObjectID: fresh (larger than every id in the
collection) and nonzero. -/
def genId (s : Store) : ObjectId := (s.map Doc.id).foldr max 0 + 1

/-- mongo InsertOne: if the marshalled document omits _id the store
generates one; a client-supplied _id is used as given, and the insert
fails with a duplicate-key error (modelled as none) if it is already
present. Returns the InsertedID and the new collection. -/
def insertOne (u : User) (s : Store) : Option (ObjectId × Store) :=
  match bsonIdOfUser u with
  | none =>
    let i := genId s
    some (i, s ++ [⟨i, u.name, u.age⟩])
  | some i =>
    if s.any (fun d => d.id == i) then none
    else some (i, s ++ [⟨i, u.name, u.age⟩])

/-- View of a stored document as a decoded User. -/
def docToUser (d : Doc) : User := ⟨d.id, d.name, d.age⟩

/-- cursor.All decoding into a Go slice declared as var users []User: with
zero documents the slice stays nil (none); otherwise it is non-nil. -/
def cursorAll : List Doc → Option (List User)
  | [] => none
  | ds => some (ds.map docToUser)

/-- mongo UpdateOne with filter name = nm and update $set name/age:
modifies the first matching document, returns MatchedCount (0 or 1) and
the collection after the call. -/
def updateOne (nm newName : String) (newAge : Int) : Store → Nat × Store
  | [] => (0, [])
  | d :: ds =>
    if d.name = nm then (1, { d with name := newName, age := newAge } :: ds)
    else
      let r := updateOne nm newName newAge ds
      (r.1, d :: r.2)

/-- mongo DeleteOne with filter name = nm: removes the first matching
document, returns DeletedCount (0 or 1) and the collection after the call. -/
def deleteOne (nm : String) : Store → Nat × Store
  | [] => (0, [])
  | d :: ds =>
    if d.name = nm then (1, ds)
    else
      let r := deleteOne nm ds
      (r.1, d :: r.2)

/-- GET /users handler (main.go lines 90-110): Find with empty filter,
decode all, replace a nil slice by an empty one, respond 200 with the
JSON array. Store query and decode failures are environmental and not
modelled. -/
def getUsersHandler (s : Store) : Response × Store :=
  let users := cursorAll s
  let users : Option (List User) :=
    match users with
    | none => some []
    | some l => some l
  ({ status := 200, body := jsonOfUserSlice users }, s)

/-- POST /user handler (main.go lines 113-135). The request body is the
result of BodyParser: none when the body is not parsable JSON. -/
def postUserHandler (body : Option User) (s : Store) : Response × Store :=
  match body with
  | none => ({ status := 400, body := errJson "Invalid JSON" }, s)
  | some user =>
    if user.name = "" then
      ({ status := 400, body := errJson "Name is required" }, s)
    else
      match insertOne user s with
      | none => ({ status := 500, body := errJson "Failed to create user" }, s)
      | some (iid, s') =>
        ({ status := 201,
           body := .jobj [("message", .jstr "User created successfully"),
                          ("id", jsonOfId iid),
                          ("user", userToJson user)] }, s')

/-- PUT /user/:name handler (main.go lines 138-161). -/
def putUserHandler (nm : String) (body : Option User) (s : Store) :
    Response × Store :=
  match body with
  | none => ({ status := 400, body := errJson "Invalid JSON" }, s)
  | some updateData =>
    let r := updateOne nm updateData.name updateData.age s
    if r.1 = 0 then
      ({ status := 404, body := errJson "User not found" }, r.2)
    else
      ({ status := 200,
         body := .jobj [("message", .jstr "User updated successfully"),
                        ("user", userToJson updateData)] }, r.2)

/-- DELETE /user/:name handler (main.go lines 164-180). -/
def deleteUserHandler (nm : String) (s : Store) : Response × Store :=
  let r := deleteOne nm s
  if r.1 = 0 then
    ({ status := 404, body := errJson "User not found" }, r.2)
  else
    ({ status := 200,
       body := .jobj [("message", .jstr "User deleted successfully"),
                      ("name", .jstr nm)] }, r.2)

/-- The startup environment of connectMongoDB: the MONGO_URI variable
(none when absent) and whether the initial mongo.Connect and client.Ping
calls succeed. -/
structure StartupEnv where
  mongoURI : Option String
  connectOk : Bool
  pingOk : Bool

/-- os.Getenv: the empty string when the variable is absent. -/
def getenv : Option String → String
  | none => ""
  | some v => v

/-- Outcome of startup: log.Fatal logs and exits the process with the
given status code; running means the HTTP server is started. -/
inductive StartupOutcome where
  | exited : Nat → String → StartupOutcome
  | running : StartupOutcome
deriving Repr, DecidableEq

/-- connectMongoDB (main.go lines 44-66) followed by the rest of main:
a missing MONGO_URI, a failed Connect or a failed Ping each hit log.Fatal,
which exits with status 1 before the Fiber app is created. -/
def connectMongoDB (env : StartupEnv) : StartupOutcome :=
  if getenv env.mongoURI = "" then .exited 1 "MONGO_URI missing!"
  else if !env.connectOk then .exited 1 "MongoDB connection failed"
  else if !env.pingOk then .exited 1 "MongoDB ping failed"
  else .running

/-- Whether main reaches the point where the HTTP server is started:
only when connectMongoDB returned instead of exiting. -/
def serverStarts (env : StartupEnv) : Bool :=
  match connectMongoDB env with
  | .exited _ _ => false
  | .running => true

/-- Whether a startup outcome is a log.Fatal exit with status 1. -/
def isFatalExit1 : StartupOutcome → Bool
  | .exited 1 _ => true
  | _ => false

/- ===== helper lemmas ===== -/

lemma le_foldr_max (l : List Nat) (x : Nat) (hx : x ∈ l) :
    x ≤ l.foldr max 0 := by
  induction l with
  | nil => cases hx
  | cons a t ih =>
    rw [List.foldr_cons]
    rcases List.mem_cons.mp hx with rfl | h
    · exact le_max_left _ _
    · exact le_trans (ih h) (le_max_right _ _)

lemma genId_not_mem (s : Store) : genId s ∉ s.map Doc.id := by
  intro h
  have hle := le_foldr_max (s.map Doc.id) (genId s) h
  simp only [genId] at hle
  omega

lemma genId_ne_zero (s : Store) : genId s ≠ 0 := by
  simp [genId]

lemma insertOne_some (u : User) (s : Store) (i : ObjectId) (s' : Store)
    (h : insertOne u s = some (i, s')) :
    s' = s ++ [⟨i, u.name, u.age⟩] ∧ i ∉ s.map Doc.id ∧ i ≠ 0 := by
  by_cases h0 : u.id = 0
  · simp only [insertOne, bsonIdOfUser, h0, if_pos, Option.some.injEq,
      Prod.mk.injEq] at h
    obtain ⟨hi, hs⟩ := h
    subst hi
    exact ⟨hs.symm, genId_not_mem s, genId_ne_zero s⟩
  · simp only [insertOne, bsonIdOfUser, h0, if_neg, ite_not] at h
    by_cases ha : s.any (fun d => d.id == i)
    · by_cases ha' : s.any (fun d => d.id == u.id)
      · simp [ha'] at h
      · simp only [ha', if_neg, Bool.false_eq_true, ite_false,
          Option.some.injEq, Prod.mk.injEq] at h
        obtain ⟨hi, hs⟩ := h
        subst hi
        exact absurd ha (by simpa using ha')
    · by_cases ha' : s.any (fun d => d.id == u.id)
      · simp [ha'] at h
      · simp only [ha', Bool.false_eq_true, ite_false, Option.some.injEq,
          Prod.mk.injEq] at h
        obtain ⟨hi, hs⟩ := h
        subst hi
        refine ⟨hs.symm, ?_, h0⟩
        intro hmem
        rcases List.mem_map.mp hmem with ⟨d, hd, hdi⟩
        have : s.any (fun d => d.id == u.id) = true :=
          List.any_eq_true.mpr ⟨d, hd, by simp [hdi]⟩
        exact ha' this

lemma jsonOfId_inj {a b : ObjectId} (h : jsonOfId a = jsonOfId b) :
    a = b := by
  simp only [jsonOfId, Json.jnum.injEq] at h
  exact Int.ofNat.inj h

lemma postUser_of_insert (s : Store) (u : User) (i : ObjectId) (s' : Store)
    (hname : u.name ≠ "") (hins : insertOne u s = some (i, s')) :
    postUserHandler (some u) s =
      ({ status := 201,
         body := .jobj [("message", .jstr "User created successfully"),
                        ("id", jsonOfId i), ("user", userToJson u)] }, s') := by
  simp [postUserHandler, hname, hins]

lemma getUsers_body_of_ne_nil (s : Store) (h : s ≠ []) :
    (getUsersHandler s).1.body =
      Json.jarr (s.map (fun e => userToJson (docToUser e))) := by
  match s with
  | [] => exact absurd rfl h
  | d :: ds => simp [getUsersHandler, cursorAll, jsonOfUserSlice, List.map_map]

lemma updateOne_no_match (nm n' : String) (a' : Int) (s : Store)
    (h : ∀ d ∈ s, d.name ≠ nm) : updateOne nm n' a' s = (0, s) := by
  induction s with
  | nil => rfl
  | cons d ds ih =>
    have hd : d.name ≠ nm := h d (List.mem_cons_self d ds)
    have iht := ih (fun e he => h e (List.mem_cons_of_mem d he))
    simp [updateOne, hd, iht]

lemma deleteOne_no_match (nm : String) (s : Store)
    (h : ∀ d ∈ s, d.name ≠ nm) : deleteOne nm s = (0, s) := by
  induction s with
  | nil => rfl
  | cons d ds ih =>
    have hd : d.name ≠ nm := h d (List.mem_cons_self d ds)
    have iht := ih (fun e he => h e (List.mem_cons_of_mem d he))
    simp [deleteOne, hd, iht]

lemma updateOne_matched (nm n' : String) (a' : Int) (s : Store)
    (hm : ∃ d ∈ s, d.name = nm) :
    (updateOne nm n' a' s).1 = 1 ∧
    ∃ d ∈ (updateOne nm n' a' s).2, d.name = n' ∧ d.age = a' := by
  induction s with
  | nil =>
    rcases hm with ⟨d, hd, _⟩
    cases hd
  | cons d ds ih =>
    by_cases hd : d.name = nm
    · refine ⟨by simp [updateOne, hd], ?_⟩
      refine ⟨{ d with name := n', age := a' }, ?_, rfl, rfl⟩
      simp [updateOne, hd]
    · have hm' : ∃ e ∈ ds, e.name = nm := by
        rcases hm with ⟨e, he, hn⟩
        rcases List.mem_cons.mp he with rfl | h
        · exact absurd hn hd
        · exact ⟨e, h, hn⟩
      rcases ih hm' with ⟨h1, e, he, hn, ha⟩
      refine ⟨by simp [updateOne, hd, h1], ⟨e, ?_, hn, ha⟩⟩
      simp only [updateOne, hd, if_neg, ite_false]
      exact List.mem_cons_of_mem d he

/- ===== claim theorems ===== -/

/-- C1: on a fresh store, POST /user with Alice age 30 returns 201 with a
body whose user field is Alice age 30 and stores one document; GET /users
then returns exactly that one entry; PUT /user/Alice with age 31 returns
200 and the next GET shows age 31 for Alice; DELETE /user/Alice returns
200 and the final GET returns the empty array, containing no Alice entry. -/
theorem c1_round_trip :
    postUserHandler (some ⟨0, "Alice", 30⟩) [] =
      ({ status := 201,
         body := .jobj [("message", .jstr "User created successfully"),
                        ("id", jsonOfId 1),
                        ("user", userToJson ⟨0, "Alice", 30⟩)] },
       [⟨1, "Alice", 30⟩]) ∧
    Json.getField (postUserHandler (some ⟨0, "Alice", 30⟩) []).1.body "user" =
      some (.jobj [("_id", jsonOfId 0), ("name", .jstr "Alice"),
                   ("age", .jnum 30)]) ∧
    getUsersHandler [⟨1, "Alice", 30⟩] =
      ({ status := 200, body := .jarr [userToJson ⟨1, "Alice", 30⟩] },
       [⟨1, "Alice", 30⟩]) ∧
    putUserHandler "Alice" (some ⟨0, "Alice", 31⟩) [⟨1, "Alice", 30⟩] =
      ({ status := 200,
         body := .jobj [("message", .jstr "User updated successfully"),
                        ("user", userToJson ⟨0, "Alice", 31⟩)] },
       [⟨1, "Alice", 31⟩]) ∧
    getUsersHandler [⟨1, "Alice", 31⟩] =
      ({ status := 200, body := .jarr [userToJson ⟨1, "Alice", 31⟩] },
       [⟨1, "Alice", 31⟩]) ∧
    deleteUserHandler "Alice" [⟨1, "Alice", 31⟩] =
      ({ status := 200,
         body := .jobj [("message", .jstr "User deleted successfully"),
                        ("name", .jstr "Alice")] }, []) ∧
    getUsersHandler [] = ({ status := 200, body := .jarr [] }, []) :=
  ⟨rfl, rfl, rfl, rfl, rfl, rfl, rfl⟩

/-- C2: a malformed body (BodyParser failure) on POST /user or
PUT /user/:name, or a POST body with an empty or missing name, yields
status 400 (so never 500) with the store left unchanged. -/
theorem c2_bad_input_rejected (s : Store) (nm : String) (u : User) :
    ((postUserHandler none s).1.status = 400 ∧ (postUserHandler none s).2 = s) ∧
    ((putUserHandler nm none s).1.status = 400 ∧
     (putUserHandler nm none s).2 = s) ∧
    (u.name = "" →
      (postUserHandler (some u) s).1.status = 400 ∧
      (postUserHandler (some u) s).2 = s) := by
  refine ⟨⟨rfl, rfl⟩, ⟨rfl, rfl⟩, fun h => ?_⟩
  simp [postUserHandler, h]

/-- Witness for C2 at a concrete store, path name and empty-name body. -/
theorem c2_bad_input_rejected_witness :
    (⟨0, "", 7⟩ : User).name = "" ∧
    (((postUserHandler none []).1.status = 400 ∧
      (postUserHandler none []).2 = []) ∧
     ((putUserHandler "Alice" none []).1.status = 400 ∧
      (putUserHandler "Alice" none []).2 = []) ∧
     ((postUserHandler (some ⟨0, "", 7⟩) []).1.status = 400 ∧
      (postUserHandler (some ⟨0, "", 7⟩) []).2 = [])) :=
  ⟨rfl,
   ⟨(c2_bad_input_rejected [] "Alice" ⟨0, "", 7⟩).1,
    (c2_bad_input_rejected [] "Alice" ⟨0, "", 7⟩).2.1,
    (c2_bad_input_rejected [] "Alice" ⟨0, "", 7⟩).2.2 rfl⟩⟩

/-- C3: a POST /user with a parsable body, non-empty name and a successful
insert responds 201 with the inserted id in the id field and the echoed
user in the user field; the inserted id is new to the collection, the
document lands in the collection, and a subsequent GET /users lists it. -/
theorem c3_post_insert_visible (s : Store) (u : User) (i : ObjectId)
    (s' : Store) (hname : u.name ≠ "")
    (hins : insertOne u s = some (i, s')) :
    (postUserHandler (some u) s).1.status = 201 ∧
    Json.getField (postUserHandler (some u) s).1.body "id" =
      some (jsonOfId i) ∧
    Json.getField (postUserHandler (some u) s).1.body "user" =
      some (userToJson u) ∧
    (postUserHandler (some u) s).2 = s' ∧
    i ∉ s.map Doc.id ∧
    (⟨i, u.name, u.age⟩ : Doc) ∈ s' ∧
    userToJson (docToUser ⟨i, u.name, u.age⟩) ∈
      Json.arrElems (getUsersHandler s').1.body := by
  obtain ⟨hs', hfresh, _⟩ := insertOne_some u s i s' hins
  have hpost := postUser_of_insert s u i s' hname hins
  have hmem : (⟨i, u.name, u.age⟩ : Doc) ∈ s' := by
    rw [hs']
    exact List.mem_append_right s (by simp)
  refine ⟨by rw [hpost], by rw [hpost]; rfl, by rw [hpost]; rfl,
    by rw [hpost], hfresh, hmem, ?_⟩
  have hne : s' ≠ [] := by
    rw [hs']
    simp
  rw [getUsers_body_of_ne_nil s' hne]
  exact List.mem_map_of_mem _ hmem

/-- Witness for C3 at a fresh store and the body Alice age 30. -/
theorem c3_post_insert_visible_witness :
    (⟨0, "Alice", 30⟩ : User).name ≠ "" ∧
    insertOne ⟨0, "Alice", 30⟩ [] = some (1, [⟨1, "Alice", 30⟩]) ∧
    ((postUserHandler (some ⟨0, "Alice", 30⟩) []).1.status = 201 ∧
     (⟨1, "Alice", 30⟩ : Doc) ∈ ([⟨1, "Alice", 30⟩] : Store) ∧
     userToJson (docToUser ⟨1, "Alice", 30⟩) ∈
       Json.arrElems (getUsersHandler [⟨1, "Alice", 30⟩]).1.body) :=
  ⟨by decide, rfl,
   (c3_post_insert_visible [] ⟨0, "Alice", 30⟩ 1 [⟨1, "Alice", 30⟩]
      (by decide) rfl).1,
   (c3_post_insert_visible [] ⟨0, "Alice", 30⟩ 1 [⟨1, "Alice", 30⟩]
      (by decide) rfl).2.2.2.2.2.1,
   (c3_post_insert_visible [] ⟨0, "Alice", 30⟩ 1 [⟨1, "Alice", 30⟩]
      (by decide) rfl).2.2.2.2.2.2⟩

/-- C4: GET /users on the empty collection responds 200 with the empty
JSON array as body, and that body is not null. -/
theorem c4_empty_get_users :
    getUsersHandler [] = ({ status := 200, body := .jarr [] }, []) ∧
    Json.jarr [] ≠ Json.null :=
  ⟨rfl, fun h => Json.noConfusion h⟩

/-- C5: PUT /user/:name with a parsable body when no document carries the
path name responds 404 and leaves the collection unchanged. -/
theorem c5_put_not_found (s : Store) (nm : String) (u : User)
    (h : ∀ d ∈ s, d.name ≠ nm) :
    putUserHandler nm (some u) s =
      ({ status := 404, body := errJson "User not found" }, s) := by
  simp [putUserHandler, updateOne_no_match nm u.name u.age s h]

/-- Witness for C5 on a store holding only Bob, targeting Alice. -/
theorem c5_put_not_found_witness :
    (([⟨1, "Bob", 2⟩] : Store).all (fun d => d.name != "Alice")) = true ∧
    putUserHandler "Alice" (some ⟨0, "Alice", 31⟩) [⟨1, "Bob", 2⟩] =
      ({ status := 404, body := errJson "User not found" }, [⟨1, "Bob", 2⟩]) :=
  ⟨rfl, c5_put_not_found [⟨1, "Bob", 2⟩] "Alice" ⟨0, "Alice", 31⟩ (by decide)⟩

/-- C6: DELETE /user/:name when no document carries the path name responds
404 and leaves the collection unchanged. -/
theorem c6_delete_not_found (s : Store) (nm : String)
    (h : ∀ d ∈ s, d.name ≠ nm) :
    deleteUserHandler nm s =
      ({ status := 404, body := errJson "User not found" }, s) := by
  simp [deleteUserHandler, deleteOne_no_match nm s h]

/-- Witness for C6 on a store holding only Bob, targeting Alice. -/
theorem c6_delete_not_found_witness :
    (([⟨1, "Bob", 2⟩] : Store).all (fun d => d.name != "Alice")) = true ∧
    deleteUserHandler "Alice" [⟨1, "Bob", 2⟩] =
      ({ status := 404, body := errJson "User not found" }, [⟨1, "Bob", 2⟩]) :=
  ⟨rfl, c6_delete_not_found [⟨1, "Bob", 2⟩] "Alice" (by decide)⟩

/-- C7 counterexample: the User struct parses the _id JSON field, and the
bson tag _id,omitempty only omits the zero ObjectID, so a client body
carrying a nonzero _id (here 7) sends that _id to the store and the
inserted document keeps it: the _id is neither omitted nor
store-generated for this request body. -/
theorem c7_client_id_passthrough :
    bsonIdOfUser ⟨7, "Mallory", 1⟩ = some 7 ∧
    postUserHandler (some ⟨7, "Mallory", 1⟩) [] =
      ({ status := 201,
         body := .jobj [("message", .jstr "User created successfully"),
                        ("id", jsonOfId 7),
                        ("user", userToJson ⟨7, "Mallory", 1⟩)] },
       [⟨7, "Mallory", 1⟩]) ∧
    genId [] ≠ 7 :=
  ⟨rfl, rfl, by decide⟩

/-- C7 amended: when the client body carries no _id (the zero ObjectID),
the _id is omitted from the document sent to the store and the stored _id
is store-generated, fresh and nonzero; a nonzero client-supplied _id is
instead passed through to the store as the inserted _id. -/
theorem c7_id_omitted_when_zero (s : Store) (u : User) :
    (u.id = 0 →
      bsonIdOfUser u = none ∧
      insertOne u s = some (genId s, s ++ [⟨genId s, u.name, u.age⟩]) ∧
      genId s ∉ s.map Doc.id ∧ genId s ≠ 0) ∧
    (u.id ≠ 0 →
      bsonIdOfUser u = some u.id ∧
      ∀ i s', insertOne u s = some (i, s') → i = u.id) := by
  constructor
  · intro h0
    exact ⟨by simp [bsonIdOfUser, h0],
      by simp [insertOne, bsonIdOfUser, h0],
      genId_not_mem s, genId_ne_zero s⟩
  · intro h0
    refine ⟨by simp [bsonIdOfUser, h0], ?_⟩
    intro i s' h
    simp only [insertOne, bsonIdOfUser, h0, if_neg, ite_false] at h
    by_cases ha : s.any (fun d => d.id == u.id)
    · simp [ha] at h
    · simp only [ha, Bool.false_eq_true, ite_false, Option.some.injEq,
        Prod.mk.injEq] at h
      exact h.1.symm

/-- Witness for C7 amended, at a zero-id body and at a nonzero-id body. -/
theorem c7_id_omitted_when_zero_witness :
    ((⟨0, "Alice", 30⟩ : User).id = 0 ∧
     insertOne ⟨0, "Alice", 30⟩ [] = some (1, [⟨1, "Alice", 30⟩])) ∧
    ((⟨7, "Mallory", 1⟩ : User).id ≠ 0 ∧
     bsonIdOfUser ⟨7, "Mallory", 1⟩ = some 7) :=
  ⟨⟨rfl,
    ((c7_id_omitted_when_zero [] ⟨0, "Alice", 30⟩).1 rfl).2.1⟩,
   ⟨by decide,
    ((c7_id_omitted_when_zero [] ⟨7, "Mallory", 1⟩).2 (by decide)).1⟩⟩

/-- C8: when MONGO_URI is absent from the environment, or the initial
connect fails, or the ping fails, connectMongoDB hits log.Fatal, which
exits the process with status 1 before the HTTP server is started. -/
theorem c8_startup_fatal (env : StartupEnv)
    (h : env.mongoURI = none ∨ env.connectOk = false ∨ env.pingOk = false) :
    isFatalExit1 (connectMongoDB env) = true ∧ serverStarts env = false := by
  have hf : isFatalExit1 (connectMongoDB env) = true := by
    unfold connectMongoDB
    by_cases hu : getenv env.mongoURI = ""
    · simp [hu, isFatalExit1]
    · have hc : ¬(env.mongoURI = none) := fun hn => hu (by rw [hn]; rfl)
      rcases h with h | h | h
      · exact absurd h hc
      · simp [hu, h, isFatalExit1]
      · by_cases h2 : env.connectOk
        · simp [hu, h2, h, isFatalExit1]
        · simp [hu, h2, isFatalExit1]
  refine ⟨hf, ?_⟩
  unfold serverStarts
  split
  · rfl
  · rename_i heq
    rw [heq] at hf
    simp [isFatalExit1] at hf

/-- Witness for C8 with MONGO_URI absent and the store reachable. -/
theorem c8_startup_fatal_witness :
    ({ mongoURI := none, connectOk := true, pingOk := true } :
        StartupEnv).mongoURI = none ∧
    (isFatalExit1 (connectMongoDB ⟨none, true, true⟩) = true ∧
     serverStarts ⟨none, true, true⟩ = false) :=
  ⟨rfl, c8_startup_fatal ⟨none, true, true⟩ (Or.inl rfl)⟩

/-- C9: PUT /user/:name does not validate the body name: with a parsable
body whose name is empty and a document matching the path name, the
handler responds 200 and the collection now holds a document with the
empty name and the body age — a document no POST /user can create, since
POST rejects every empty-name body with 400 and no store change. -/
theorem c9_put_skips_validation (s : Store) (nm : String) (u : User)
    (hu : u.name = "") (hm : ∃ d ∈ s, d.name = nm) :
    (putUserHandler nm (some u) s).1.status = 200 ∧
    (∃ d ∈ (putUserHandler nm (some u) s).2, d.name = "" ∧ d.age = u.age) ∧
    (∀ v t, v.name = "" →
      (postUserHandler (some v) t).1.status = 400 ∧
      (postUserHandler (some v) t).2 = t) := by
  obtain ⟨h1, d, hd, hn, ha⟩ := updateOne_matched nm u.name u.age s hm
  refine ⟨?_, ⟨d, ?_, by rw [hn, hu], ha⟩, ?_⟩
  · simp [putUserHandler, h1]
  · simpa [putUserHandler, h1] using hd
  · intro v t hv
    constructor <;> simp [postUserHandler, hv]

/-- Witness for C9: store holding Bob age 3, body with empty name age 9. -/
theorem c9_put_skips_validation_witness :
    (⟨0, "", 9⟩ : User).name = "" ∧
    (⟨1, "Bob", 3⟩ : Doc) ∈ ([⟨1, "Bob", 3⟩] : Store) ∧
    (⟨1, "Bob", 3⟩ : Doc).name = "Bob" ∧
    ((putUserHandler "Bob" (some ⟨0, "", 9⟩) [⟨1, "Bob", 3⟩]).1.status = 200 ∧
     ∃ d ∈ (putUserHandler "Bob" (some ⟨0, "", 9⟩) [⟨1, "Bob", 3⟩]).2,
       d.name = "" ∧ d.age = (⟨0, "", 9⟩ : User).age) :=
  ⟨rfl, by simp, rfl,
   (c9_put_skips_validation [⟨1, "Bob", 3⟩] "Bob" ⟨0, "", 9⟩ rfl
      ⟨⟨1, "Bob", 3⟩, by simp, rfl⟩).1,
   (c9_put_skips_validation [⟨1, "Bob", 3⟩] "Bob" ⟨0, "", 9⟩ rfl
      ⟨⟨1, "Bob", 3⟩, by simp, rfl⟩).2.1⟩

/-- C10: on a successful POST /user the user field of the 201 body is the
parsed request user, whose _id is the parsed value (the zero ObjectID when
the client sent none), while the inserted id sits only in the id field;
with a zero parsed _id the two differ, the inserted id being the
store-generated one. -/
theorem c10_echoed_user_keeps_parsed_id (s : Store) (u : User)
    (i : ObjectId) (s' : Store) (hname : u.name ≠ "")
    (hins : insertOne u s = some (i, s')) :
    Json.getField (postUserHandler (some u) s).1.body "user" =
      some (userToJson u) ∧
    Json.getField (userToJson u) "_id" = some (jsonOfId u.id) ∧
    Json.getField (postUserHandler (some u) s).1.body "id" =
      some (jsonOfId i) ∧
    (u.id = 0 → i = genId s ∧ jsonOfId u.id ≠ jsonOfId i) := by
  have hpost := postUser_of_insert s u i s' hname hins
  refine ⟨by rw [hpost]; rfl, rfl, by rw [hpost]; rfl, fun h0 => ?_⟩
  have hi : i = genId s := by
    simp only [insertOne, bsonIdOfUser, h0, if_pos, Option.some.injEq,
      Prod.mk.injEq] at hins
    exact hins.1.symm
  refine ⟨hi, ?_⟩
  rw [h0, hi]
  intro hEq
  exact genId_ne_zero s (jsonOfId_inj hEq).symm

/-- Witness for C10 at a fresh store and the body Alice age 30. -/
theorem c10_echoed_user_keeps_parsed_id_witness :
    (⟨0, "Alice", 30⟩ : User).name ≠ "" ∧
    insertOne ⟨0, "Alice", 30⟩ [] = some (1, [⟨1, "Alice", 30⟩]) ∧
    (⟨0, "Alice", 30⟩ : User).id = 0 ∧
    (Json.getField
        (postUserHandler (some ⟨0, "Alice", 30⟩) []).1.body "user" =
      some (userToJson ⟨0, "Alice", 30⟩) ∧
     (1 = genId [] ∧ jsonOfId (0 : ObjectId) ≠ jsonOfId 1)) :=
  ⟨by decide, rfl, rfl,
   (c10_echoed_user_keeps_parsed_id [] ⟨0, "Alice", 30⟩ 1 [⟨1, "Alice", 30⟩]
      (by decide) rfl).1,
   (c10_echoed_user_keeps_parsed_id [] ⟨0, "Alice", 30⟩ 1 [⟨1, "Alice", 30⟩]
      (by decide) rfl).2.2.2 rfl⟩

end FiberServer
